import Mathlib

/-!
Shallow embedding of the `fsrapiclient` library (FS Register API client).

The embedding follows `src/fsrapiclient/constants.py`, `exceptions.py` and
`api.py`.  JSON bodies are modelled by an inductive `Json` type; the Python
dynamic behaviours the client relies on (truthiness, `len`, subscription,
`dict.get`) are modelled as explicit functions returning `Except PyErr _`
so that uncaught Python exceptions are visible.  HTTP transport is an
oracle `String → Except TransportError SearchResponse` mapping a URL to
either a transport failure (`requests.RequestException`) or a response.
-/

namespace Fsrapiclient

/-- A decoded JSON value, as produced by `requests.Response.json()`. -/
inductive Json where
  | null
  | bool (b : Bool)
  | num (n : Int)
  | str (s : String)
  | arr (elems : List Json)
  | obj (fields : List (String × Json))
deriving Repr, Inhabited

/-- Python exceptions that can escape or be caught in the client code. -/
inductive PyErr where
  | keyError
  | indexError
  | typeError
  | attributeError
  | jsonDecodeError
deriving Repr, DecidableEq, Inhabited

/-- Python truthiness of the value returned by `response.json().get(key)`:
`None` (the key is absent) and empty containers are falsy, as are `null`,
`false`, `0` and the empty string. -/
def truthy : Option Json → Bool
  | none => false
  | some .null => false
  | some (.bool b) => b
  | some (.num n) => n != 0
  | some (.str s) => s ≠ ""
  | some (.arr l) => !l.isEmpty
  | some (.obj l) => !l.isEmpty

/-- Python `len` applied to the value returned by `json().get(key)`:
defined on strings, lists and dicts (number of keys); `TypeError`
otherwise, including on `None`. -/
def pyLen : Option Json → Except PyErr Nat
  | some (.str s) => .ok s.length
  | some (.arr l) => .ok l.length
  | some (.obj l) => .ok l.length
  | _ => .error .typeError

/-- First-match lookup of a key in a JSON object field list, as in a
Python dict built from JSON (keys are unique, the first match decides). -/
def lookupField (fields : List (String × Json)) (k : String) : Option Json :=
  match fields with
  | [] => none
  | (k', v) :: rest => if k' = k then some v else lookupField rest k

/-- Python subscription `x[0]` with the integer key `0`: the head for a
non-empty list (`IndexError` when empty), the first character for a
non-empty string, a `KeyError` on a dict (JSON object keys are strings,
so the integer `0` is never present), `TypeError` otherwise. -/
def getItemZero : Option Json → Except PyErr Json
  | some (.arr []) => .error .indexError
  | some (.arr (x :: _)) => .ok x
  | some (.str s) =>
      match s.data with
      | [] => .error .indexError
      | c :: _ => .ok (.str (String.singleton c))
  | some (.obj _) => .error .keyError
  | _ => .error .typeError

/-- Python subscription `x[k]` with a string key `k`: dict lookup
(`KeyError` when the key is absent), `TypeError` on lists, strings and
all non-subscriptable values. -/
def getItemKey (j : Json) (k : String) : Except PyErr Json :=
  match j with
  | .obj fields =>
      match lookupField fields k with
      | some v => .ok v
      | none => .error .keyError
  | _ => .error .typeError

/-- Python `dict.get k` on a decoded JSON body: `None` when the key is
absent; `AttributeError` when the decoded body is not a dict (lists,
strings, numbers and null have no `get` attribute). -/
def pyGet (j : Json) (k : String) : Except PyErr (Option Json) :=
  match j with
  | .obj fields => .ok (lookupField fields k)
  | _ => .error .attributeError

/-! ### Constants (`constants.py`, enum `FSR_API_CONSTANTS`) -/

namespace FSR_API_CONSTANTS

def BASEURL : String := "https://register.fca.org.uk/services"

def API_VERSION : String := "V0.1"

/-- The `RESOURCE_TYPES` dict: key, `type_name`, `endpoint_base`. -/
def RESOURCE_TYPES : List (String × String × String) :=
  [("firm", "firm", "Firm"),
   ("fund", "fund", "CIS"),
   ("individual", "individual", "Individuals")]

end FSR_API_CONSTANTS

/-! ### Exception class hierarchy (`exceptions.py`) -/

/-- The exception classes declared in `exceptions.py`, plus the built-in
`Exception` root they derive from. -/
inductive ExcClass where
  | Exception
  | FsrApiException
  | FsrApiRequestException
  | FsrApiResponseException
deriving Repr, DecidableEq

/-- Immediate superclass of each class in `exceptions.py`. -/
def superclass : ExcClass → Option ExcClass
  | .Exception => none
  | .FsrApiException => some .Exception
  | .FsrApiRequestException => some .FsrApiException
  | .FsrApiResponseException => some .FsrApiException

/-! ### Responses and transport -/

/-- A transport-level failure (`requests.RequestException`), carrying a
description of the underlying cause. -/
inductive TransportError where
  | mk (cause : String)
deriving Repr, DecidableEq

/-- The observable parts of a `requests.Response` that `api.py` reads:
the HTTP status code, the reason phrase, and the decoded JSON body
(`none` when the body is not parseable as JSON). -/
structure SearchResponse where
  status_code : Nat
  reason : String
  body : Option Json
deriving Repr

/-- The `requests.Response.ok` property: true exactly when the status
code is below 400. -/
def SearchResponse.ok (r : SearchResponse) : Bool :=
  r.status_code < 400

/-- An HTTP transport oracle: what `session.get url` would yield. -/
def Transport : Type := String → Except TransportError SearchResponse

/-! ### `FsrApiResponse` envelope accessors (`api.py`, lines 141-184) -/

/-- The result of `self.json()`: the decoded body, or a JSON decode
error when the body is not parseable as JSON. -/
def response_json (r : SearchResponse) : Except PyErr Json :=
  match r.body with
  | none => .error .jsonDecodeError
  | some j => .ok j

/-- Property `fsr_status`: `self.json().get('Status')`. -/
def fsr_status (r : SearchResponse) : Except PyErr (Option Json) := do
  pyGet (← response_json r) "Status"

/-- Property `fsr_resultinfo`: `self.json().get('ResultInfo')`. -/
def fsr_resultinfo (r : SearchResponse) : Except PyErr (Option Json) := do
  pyGet (← response_json r) "ResultInfo"

/-- Property `fsr_message`: `self.json().get('Message')`. -/
def fsr_message (r : SearchResponse) : Except PyErr (Option Json) := do
  pyGet (← response_json r) "Message"

/-- Property `fsr_data`: `self.json().get('Data')`. -/
def fsr_data (r : SearchResponse) : Except PyErr (Option Json) := do
  pyGet (← response_json r) "Data"

/-! ### URL building and the client operations (`api.py`) -/

/-- Hexadecimal digit used by percent-encoding. -/
def hexDigit (n : Nat) : Char :=
  "0123456789ABCDEF".data.getD n (Char.ofNat 48)

/-- Percent-encoding of one UTF-8 byte as done by
`urllib.parse.quote_plus`: unreserved ASCII passes through, a space
becomes a plus, anything else becomes a percent escape. -/
def quote_plus_byte (b : UInt8) : String :=
  let n := b.toNat
  let c := Char.ofNat n
  if (n < 128 && c.isAlphanum) || c = Char.ofNat 95 || c = Char.ofNat 46 ||
      c = Char.ofNat 45 || c = Char.ofNat 126 then
    String.singleton c
  else if n = 32 then
    "+"
  else
    "%" ++ String.singleton (hexDigit (n / 16)) ++ String.singleton (hexDigit (n % 16))

/-- The `urllib.parse.quote_plus` encoding of a string. -/
def quote_plus (s : String) : String :=
  String.join (s.toUTF8.toList.map quote_plus_byte)

/-- The query string built by each resolver,
`urlencode ⟨q ↦ name, type ↦ ty⟩`. -/
def urlencode_q_type (name ty : String) : String :=
  "q=" ++ quote_plus name ++ "&type=" ++ quote_plus ty

/-- The result of an API operation: a wrapped response, or the
`FsrApiRequestException` raised from a caught
`requests.RequestException`, carrying the underlying cause. -/
inductive ApiResult where
  | response (r : SearchResponse)
  | requestExc (cause : TransportError)
deriving Repr

/-- The URL built by `common_search` (`api.py` line 337). -/
def common_search_url (search_str : String) : String :=
  FSR_API_CONSTANTS.BASEURL ++ "/" ++ FSR_API_CONSTANTS.API_VERSION ++
    "/Search?" ++ search_str

/-- Method `common_search` (`api.py` lines 337-342): build the search
URL, issue the GET, and wrap a transport failure as
`FsrApiRequestException`. -/
def common_search (search_str : String) (t : Transport) : ApiResult :=
  match t (common_search_url search_str) with
  | .ok r => .response r
  | .error e => .requestExc e

/-- Python truthiness of the optional modifiers tuple: the default
`None` and the empty tuple are falsy. -/
def modifiersTruthy : Option (List String) → Bool
  | none => false
  | some ms => !ms.isEmpty

/-- The URL built by `_firm_info` (`api.py` lines 507-510): base, API
version, the `Firm` segment and the FRN; when the modifiers tuple is
truthy, a slash and the modifiers joined by slashes are appended, with
no stripping of any kind applied to the modifier strings. -/
def firm_info_url (frn : String) (modifiers : Option (List String)) : String :=
  let url := FSR_API_CONSTANTS.BASEURL ++ "/" ++ FSR_API_CONSTANTS.API_VERSION ++
    "/Firm/" ++ frn
  if modifiersTruthy modifiers then
    url ++ "/" ++ String.intercalate "/" (modifiers.getD [])
  else
    url

/-- The URL built by `_individual_info` (`api.py` lines 1191-1194). -/
def individual_info_url (irn : String) (modifiers : Option (List String)) : String :=
  let url := FSR_API_CONSTANTS.BASEURL ++ "/" ++ FSR_API_CONSTANTS.API_VERSION ++
    "/Individuals/" ++ irn
  if modifiersTruthy modifiers then
    url ++ "/" ++ String.intercalate "/" (modifiers.getD [])
  else
    url

/-- The URL built by `_fund_info` (`api.py` lines 1454-1457). -/
def fund_info_url (prn : String) (modifiers : Option (List String)) : String :=
  let url := FSR_API_CONSTANTS.BASEURL ++ "/" ++ FSR_API_CONSTANTS.API_VERSION ++
    "/CIS/" ++ prn
  if modifiersTruthy modifiers then
    url ++ "/" ++ String.intercalate "/" (modifiers.getD [])
  else
    url

/-- Method `_firm_info` (`api.py` lines 507-515): build the URL, issue
the GET, wrap transport failures. -/
def firm_info (frn : String) (modifiers : Option (List String)) (t : Transport) :
    ApiResult :=
  match t (firm_info_url frn modifiers) with
  | .ok r => .response r
  | .error e => .requestExc e

/-- Method `_individual_info` (`api.py` lines 1191-1199). -/
def individual_info (irn : String) (modifiers : Option (List String)) (t : Transport) :
    ApiResult :=
  match t (individual_info_url irn modifiers) with
  | .ok r => .response r
  | .error e => .requestExc e

/-- Method `_fund_info` (`api.py` lines 1454-1462). -/
def fund_info (prn : String) (modifiers : Option (List String)) (t : Transport) :
    ApiResult :=
  match t (fund_info_url prn modifiers) with
  | .ok r => .response r
  | .error e => .requestExc e

/-! ### The name resolvers (`search_frn`, `search_irn`, `search_prn`) -/

/-- The three resource types the resolvers are specialised to. -/
inductive ResourceType where
  | firm
  | individual
  | fund
deriving Repr, DecidableEq

/-- The `type_name` string of a resource type (`constants.py`). -/
def ResourceType.type_name : ResourceType → String
  | .firm => "firm"
  | .individual => "individual"
  | .fund => "fund"

/-- The exact message of the multiple-matches `FsrApiResponseException`
raised by each resolver (`api.py` lines 412-416, 1108-1112, 1370-1374). -/
def multiple_msg : ResourceType → String
  | .firm =>
      "Multiple firms returned. Firm name needs to be more precise. " ++
      "If you are unsure of the results please use the common search endpoint"
  | .individual =>
      "Multiple individuals returned. The individual name needs to be more " ++
      "precise. If you are unsure of the results please use the common search endpoint"
  | .fund =>
      "Multiple funds returned. The fund name needs to be more precise. " ++
      "If you are unsure of the results please use the common search endpoint"

/-- The exact message of the malformed-data `FsrApiResponseException`
raised by each resolver (`api.py` lines 421-425, 1117-1121, 1379-1383). -/
def malformed_msg : ResourceType → String
  | .firm =>
      "Unexpected response data structure from the FS Register API for " ++
      "general firm search by name! Please check the FS Register API " ++
      "developer documentation at https://register.fca.org.uk/Developer/s/"
  | .individual =>
      "Unexpected response data structure from the FS Register API for " ++
      "general individual search by name! Please check the FS Register API " ++
      "developer documentation at https://register.fca.org.uk/Developer/s/"
  | .fund =>
      "Unexpected response data structure from the FS Register API for " ++
      "general fund search by name! Please check the FS Register API " ++
      "developer documentation at https://register.fca.org.uk/Developer/s/"

/-- The exact message of the no-data `FsrApiResponseException`, shared
by the three resolvers (`api.py` lines 427-430). -/
def no_data_msg : String :=
  "No data found in FS Register API response. Please check the search " ++
  "parameters and try again."

/-- The message of the residual `FsrApiResponseException` raised when
the response is not ok but carries data (`api.py` lines 432-435). -/
def other_reason_msg (reason : String) : String :=
  "FS Register API search request failed for some other reason: " ++ reason

/-- The observable outcome of a resolver call.  The constructors tag
the distinct exit points of the source: the returned reference value,
the four `FsrApiResponseException` raise sites (each carrying its exact
message), the re-raised `FsrApiRequestException`, and any Python
exception that no handler catches. -/
inductive ResolveOutcome where
  | ref (v : Json)
  | multipleMatches (msg : String)
  | noData (msg : String)
  | malformedData (msg : String)
  | otherReason (msg : String)
  | requestExc (cause : TransportError)
  | uncaught (e : PyErr)
deriving Repr

/-- The extraction `res.fsr_data[0]['Reference Number']` attempted by
each resolver on a payload it considers unique. -/
def extract_ref (d : Option Json) : Except PyErr Json := do
  getItemKey (← getItemZero d) "Reference Number"

/-- The shared decision logic of `search_frn` / `search_irn` /
`search_prn` after `common_search` has returned a response (`api.py`
lines 410-435, 1106-1131, 1368-1393; the three bodies are identical up
to the message literals chosen by `rt`). -/
def search_ref_handle (rt : ResourceType) (res : SearchResponse) : ResolveOutcome :=
  match fsr_data res with
  | .error e => .uncaught e
  | .ok d =>
    if res.ok && truthy d then
      match pyLen d with
      | .error e => .uncaught e
      | .ok n =>
        if n > 1 then
          .multipleMatches (multiple_msg rt)
        else
          match extract_ref d with
          | .ok v => .ref v
          | .error .keyError => .malformedData (malformed_msg rt)
          | .error .indexError => .malformedData (malformed_msg rt)
          | .error e => .uncaught e
    else if !truthy d then
      .noData no_data_msg
    else
      .otherReason (other_reason_msg res.reason)

/-- Dispatch of a resolved `common_search` result, shared by the three
resolvers: a re-raised `FsrApiRequestException` passes through, a
response goes to the decision logic. -/
def search_ref_dispatch (rt : ResourceType) (r : ApiResult) : ResolveOutcome :=
  match r with
  | .requestExc e => .requestExc e
  | .response res => search_ref_handle rt res

/-- Method `search_frn` (`api.py` lines 405-435). -/
def search_frn (firm_name : String) (t : Transport) : ResolveOutcome :=
  search_ref_dispatch .firm (common_search (urlencode_q_type firm_name "firm") t)

/-- Method `search_irn` (`api.py` lines 1101-1131). -/
def search_irn (individual_name : String) (t : Transport) : ResolveOutcome :=
  search_ref_dispatch .individual
    (common_search (urlencode_q_type individual_name "individual") t)

/-- Method `search_prn` (`api.py` lines 1363-1393). -/
def search_prn (fund_name : String) (t : Transport) : ResolveOutcome :=
  search_ref_dispatch .fund (common_search (urlencode_q_type fund_name "fund") t)

/-! ### Concrete inputs used to witness or refute the claims -/

/-- A search response whose Data payload is one JSON object with two
fields: what a search would yield if the register returned a single
record inline rather than a one-entry list. -/
def resSingleObj : SearchResponse :=
  { status_code := 200, reason := "OK",
    body := some (.obj [("Data",
      .obj [("Reference Number", .str "311492"),
            ("Name", .str "Hastings Insurance Services Limited")])]) }

/-- A two-entry search payload (two firms matching one name). -/
def twoFirms : Json :=
  .arr [.obj [("Reference Number", .str "969197")],
        .obj [("Reference Number", .str "311492")]]

/-- A successful search response carrying `twoFirms`. -/
def resTwoFirms : SearchResponse :=
  { status_code := 200, reason := "OK", body := some (.obj [("Data", twoFirms)]) }

/-- A failed (500) response that nevertheless carries a non-empty Data
payload. -/
def resNotOkWithData : SearchResponse :=
  { status_code := 500, reason := "Internal Server Error",
    body := some (.obj [("Data", twoFirms)]) }

/-- A successful response whose Data payload is the empty list. -/
def resNoData : SearchResponse :=
  { status_code := 200, reason := "OK", body := some (.obj [("Data", .arr [])]) }

/-- A successful response whose single payload entry carries an empty
reference-number string. -/
def resEmptyRef : SearchResponse :=
  { status_code := 200, reason := "OK",
    body := some (.obj [("Data", .arr [.obj [("Reference Number", .str "")]])]) }

/-- A one-entry search payload whose entry lacks the reference-number
field. -/
def oneEntryNoRef : Json := .arr [.obj [("Name", .str "X")]]

/-- A successful response carrying `oneEntryNoRef`. -/
def resMissingRef : SearchResponse :=
  { status_code := 200, reason := "OK", body := some (.obj [("Data", oneEntryNoRef)]) }

/-- A response whose body parses to a JSON array rather than an object. -/
def resArrBody : SearchResponse :=
  { status_code := 200, reason := "OK", body := some (.arr [.num 1]) }

/-- A response whose body parses to a JSON object with no keys. -/
def resObjBodyNoKeys : SearchResponse :=
  { status_code := 200, reason := "OK", body := some (.obj []) }

/-- A transport on which every GET fails with the same connection
error. -/
def tDown : Transport := fun _ => .error (.mk "connection refused")

/-! ### Theorems -/

/-- Resolver reduction: reading the payload raises, so the resolver
exits with that uncaught Python exception. -/
theorem handle_of_data_error (rt : ResourceType) (res : SearchResponse) (e : PyErr)
    (hd : fsr_data res = .error e) :
    search_ref_handle rt res = .uncaught e := by
  simp [search_ref_handle, hd]

/-- Resolver reduction: a falsy payload yields the no-data failure,
whatever the HTTP status. -/
theorem handle_of_falsy_data (rt : ResourceType) (res : SearchResponse)
    (d : Option Json) (hd : fsr_data res = .ok d) (htr : truthy d = false) :
    search_ref_handle rt res = .noData no_data_msg := by
  simp [search_ref_handle, hd, htr]

/-- Resolver reduction: a non-ok response with a truthy payload yields
the residual failure built from the HTTP reason. -/
theorem handle_of_not_ok_truthy (rt : ResourceType) (res : SearchResponse)
    (d : Option Json) (hd : fsr_data res = .ok d) (htr : truthy d = true)
    (hok : res.ok = false) :
    search_ref_handle rt res = .otherReason (other_reason_msg res.reason) := by
  simp [search_ref_handle, hd, htr, hok]

/-- Resolver reduction: taking the length of the payload raises, so the
resolver exits with that uncaught Python exception. -/
theorem handle_of_len_error (rt : ResourceType) (res : SearchResponse)
    (d : Option Json) (e : PyErr) (hd : fsr_data res = .ok d)
    (htr : truthy d = true) (hok : res.ok = true) (hlen : pyLen d = .error e) :
    search_ref_handle rt res = .uncaught e := by
  simp [search_ref_handle, hd, htr, hok, hlen]

/-- Resolver reduction: an ok response with a truthy payload of length
above one yields the multiple-matches failure. -/
theorem handle_of_len_gt_one (rt : ResourceType) (res : SearchResponse)
    (d : Option Json) (n : Nat) (hd : fsr_data res = .ok d)
    (htr : truthy d = true) (hok : res.ok = true) (hlen : pyLen d = .ok n)
    (hn : 1 < n) :
    search_ref_handle rt res = .multipleMatches (multiple_msg rt) := by
  simp [search_ref_handle, hd, htr, hok, hlen, hn]

/-- Resolver reduction: extraction succeeds, so the resolver returns
the extracted value. -/
theorem handle_of_extract_ok (rt : ResourceType) (res : SearchResponse)
    (d : Option Json) (n : Nat) (v : Json) (hd : fsr_data res = .ok d)
    (htr : truthy d = true) (hok : res.ok = true) (hlen : pyLen d = .ok n)
    (hn : ¬ 1 < n) (hex : extract_ref d = .ok v) :
    search_ref_handle rt res = .ref v := by
  simp [search_ref_handle, hd, htr, hok, hlen, hn, hex]

/-- Resolver reduction: extraction raises a key error, which the
resolver converts to the malformed-data failure. -/
theorem handle_of_extract_keyError (rt : ResourceType) (res : SearchResponse)
    (d : Option Json) (n : Nat) (hd : fsr_data res = .ok d)
    (htr : truthy d = true) (hok : res.ok = true) (hlen : pyLen d = .ok n)
    (hn : ¬ 1 < n) (hex : extract_ref d = .error .keyError) :
    search_ref_handle rt res = .malformedData (malformed_msg rt) := by
  simp [search_ref_handle, hd, htr, hok, hlen, hn, hex]

/-- Resolver reduction: extraction raises an index error, which the
resolver converts to the malformed-data failure. -/
theorem handle_of_extract_indexError (rt : ResourceType) (res : SearchResponse)
    (d : Option Json) (n : Nat) (hd : fsr_data res = .ok d)
    (htr : truthy d = true) (hok : res.ok = true) (hlen : pyLen d = .ok n)
    (hn : ¬ 1 < n) (hex : extract_ref d = .error .indexError) :
    search_ref_handle rt res = .malformedData (malformed_msg rt) := by
  simp [search_ref_handle, hd, htr, hok, hlen, hn, hex]

/-- Resolver reduction: extraction raises anything other than a key or
index error and the exception escapes the resolver uncaught. -/
theorem handle_of_extract_other (rt : ResourceType) (res : SearchResponse)
    (d : Option Json) (n : Nat) (e : PyErr) (hd : fsr_data res = .ok d)
    (htr : truthy d = true) (hok : res.ok = true) (hlen : pyLen d = .ok n)
    (hn : ¬ 1 < n) (hex : extract_ref d = .error e)
    (hk : e ≠ .keyError) (hi : e ≠ .indexError) :
    search_ref_handle rt res = .uncaught e := by
  cases e with
  | keyError => exact absurd rfl hk
  | indexError => exact absurd rfl hi
  | typeError => simp [search_ref_handle, hd, htr, hok, hlen, hn, hex]
  | attributeError => simp [search_ref_handle, hd, htr, hok, hlen, hn, hex]
  | jsonDecodeError => simp [search_ref_handle, hd, htr, hok, hlen, hn, hex]

/-- C3: the detail URL builders do not strip path separators from
modifier segments, contrary to their own docstrings; a modifier with a
leading or trailing slash survives into the URL and produces a double
separator after the scheme.  Each equation evaluates the code on a
concrete failing input. -/
theorem modifier_slashes_not_stripped :
    firm_info_url "123456" (some ["/Names"]) =
      "https://register.fca.org.uk/services/V0.1/Firm/123456//Names" ∧
    individual_info_url "MXC29012" (some ["CF/"]) =
      "https://register.fca.org.uk/services/V0.1/Individuals/MXC29012/CF/" ∧
    fund_info_url "913937" (some ["/Subfund/"]) =
      "https://register.fca.org.uk/services/V0.1/CIS/913937//Subfund/" :=
  ⟨rfl, rfl, rfl⟩

/-- C9: the search URL is the fixed base and version followed by
`Search?` and the caller query string, and every detail URL is the
fixed base and version followed by the resource segment (`Firm`,
`Individuals`, `CIS`), the identifier, and, when modifiers are present,
the modifiers joined by slashes. -/
theorem url_shapes (q id m : String) (ms : List String) :
    common_search_url q =
      "https://register.fca.org.uk/services/V0.1/Search?" ++ q ∧
    firm_info_url id none =
      "https://register.fca.org.uk/services/V0.1/Firm/" ++ id ∧
    individual_info_url id none =
      "https://register.fca.org.uk/services/V0.1/Individuals/" ++ id ∧
    fund_info_url id none =
      "https://register.fca.org.uk/services/V0.1/CIS/" ++ id ∧
    firm_info_url id (some (m :: ms)) =
      "https://register.fca.org.uk/services/V0.1/Firm/" ++ id ++ "/" ++
        String.intercalate "/" (m :: ms) ∧
    individual_info_url id (some (m :: ms)) =
      "https://register.fca.org.uk/services/V0.1/Individuals/" ++ id ++ "/" ++
        String.intercalate "/" (m :: ms) ∧
    fund_info_url id (some (m :: ms)) =
      "https://register.fca.org.uk/services/V0.1/CIS/" ++ id ++ "/" ++
        String.intercalate "/" (m :: ms) :=
  ⟨rfl, rfl, rfl, rfl, rfl, rfl, rfl⟩

/-- C10: a detail fetch with the empty modifiers tuple builds exactly
the same URL as one with the default `None`, namely the bare URL ending
in the identifier; the modifier suffix is appended only for a non-empty
modifiers tuple. -/
theorem empty_modifiers_same_as_none (id m : String) (ms : List String) :
    firm_info_url id (some []) = firm_info_url id none ∧
    individual_info_url id (some []) = individual_info_url id none ∧
    fund_info_url id (some []) = fund_info_url id none ∧
    firm_info_url id none =
      "https://register.fca.org.uk/services/V0.1/Firm/" ++ id ∧
    firm_info_url id (some (m :: ms)) =
      firm_info_url id none ++ "/" ++ String.intercalate "/" (m :: ms) ∧
    individual_info_url id (some (m :: ms)) =
      individual_info_url id none ++ "/" ++ String.intercalate "/" (m :: ms) ∧
    fund_info_url id (some (m :: ms)) =
      fund_info_url id none ++ "/" ++ String.intercalate "/" (m :: ms) :=
  ⟨rfl, rfl, rfl, rfl, rfl, rfl, rfl⟩

/-- C1 counterexample: on a successful search response whose Data
payload is a single JSON object (not a list) with two fields, the
resolver raises the multiple-matches failure, because the code tests
the Python length of the payload, which for an object counts its
fields; this refutes the claim that a single-object payload is never
reported as ambiguous. -/
theorem single_object_payload_flagged_ambiguous :
    search_ref_handle .firm resSingleObj = .multipleMatches (multiple_msg .firm) ∧
    fsr_data resSingleObj = .ok (some (.obj
      [("Reference Number", .str "311492"),
       ("Name", .str "Hastings Insurance Services Limited")])) ∧
    resSingleObj.ok = true :=
  ⟨rfl, rfl, rfl⟩

/-- C1 (amended): with a response the resolver sees as ok, the resolver
fails with the multiple-matches error exactly when the Data payload is
truthy and its Python length exceeds one — for a list the number of
entries, but for a single-object payload the number of its fields, so a
single object is not exempt; the raised message is the fixed per-type
literal and contains the resource type name (firm / individual / fund). -/
theorem multipleMatches_iff_len_gt_one (rt : ResourceType) (res : SearchResponse)
    (d : Option Json) (hd : fsr_data res = .ok d) (hok : res.ok = true) :
    ((∃ m, search_ref_handle rt res = .multipleMatches m) ↔
      (truthy d = true ∧ ∃ n, pyLen d = .ok n ∧ 1 < n)) ∧
    (∀ m, search_ref_handle rt res = .multipleMatches m →
      m = multiple_msg rt ∧ ∃ a b : String, m = a ++ rt.type_name ++ b) := by
  have hmsg : ∃ a b : String, multiple_msg rt = a ++ rt.type_name ++ b := by
    cases rt
    · exact ⟨"Multiple ", "s returned. Firm name needs to be more precise. If you are unsure of the results please use the common search endpoint", rfl⟩
    · exact ⟨"Multiple ", "s returned. The individual name needs to be more precise. If you are unsure of the results please use the common search endpoint", rfl⟩
    · exact ⟨"Multiple ", "s returned. The fund name needs to be more precise. If you are unsure of the results please use the common search endpoint", rfl⟩
  have key : ∀ m, search_ref_handle rt res = .multipleMatches m →
      m = multiple_msg rt ∧ truthy d = true ∧ ∃ n, pyLen d = .ok n ∧ 1 < n := by
    intro m hm
    cases htr : truthy d with
    | false =>
      rw [handle_of_falsy_data rt res d hd htr] at hm
      simp at hm
    | true =>
      cases hlen : pyLen d with
      | error e =>
        rw [handle_of_len_error rt res d e hd htr hok hlen] at hm
        simp at hm
      | ok n =>
        by_cases hn : 1 < n
        · rw [handle_of_len_gt_one rt res d n hd htr hok hlen hn] at hm
          injection hm with h
          exact ⟨h.symm, rfl, n, rfl, hn⟩
        · cases hex : extract_ref d with
          | ok v =>
            rw [handle_of_extract_ok rt res d n v hd htr hok hlen hn hex] at hm
            simp at hm
          | error e =>
            cases e with
            | keyError =>
              rw [handle_of_extract_keyError rt res d n hd htr hok hlen hn hex] at hm
              simp at hm
            | indexError =>
              rw [handle_of_extract_indexError rt res d n hd htr hok hlen hn hex] at hm
              simp at hm
            | typeError =>
              rw [handle_of_extract_other rt res d n _ hd htr hok hlen hn hex
                (by decide) (by decide)] at hm
              simp at hm
            | attributeError =>
              rw [handle_of_extract_other rt res d n _ hd htr hok hlen hn hex
                (by decide) (by decide)] at hm
              simp at hm
            | jsonDecodeError =>
              rw [handle_of_extract_other rt res d n _ hd htr hok hlen hn hex
                (by decide) (by decide)] at hm
              simp at hm
  refine ⟨⟨fun h => ?_, fun h => ?_⟩, fun m hm => ?_⟩
  · obtain ⟨m, hm⟩ := h
    exact (key m hm).2
  · obtain ⟨htr, n, hlen, hn⟩ := h
    exact ⟨multiple_msg rt, handle_of_len_gt_one rt res d n hd htr hok hlen hn⟩
  · refine ⟨(key m hm).1, ?_⟩
    rw [(key m hm).1]
    exact hmsg

/-- C1 witness: the amended statement instantiated on a successful
search returning two firm records. -/
theorem multipleMatches_iff_len_gt_one_witness :
    (fsr_data resTwoFirms = .ok (some twoFirms) ∧ resTwoFirms.ok = true) ∧
    (((∃ m, search_ref_handle .firm resTwoFirms = .multipleMatches m) ↔
        (truthy (some twoFirms) = true ∧
          ∃ n, pyLen (some twoFirms) = .ok n ∧ 1 < n)) ∧
      (∀ m, search_ref_handle .firm resTwoFirms = .multipleMatches m →
        m = multiple_msg .firm ∧
          ∃ a b : String, m = a ++ ResourceType.type_name .firm ++ b)) :=
  ⟨⟨rfl, rfl⟩, multipleMatches_iff_len_gt_one .firm resTwoFirms (some twoFirms) rfl rfl⟩

/-- C2 counterexample: a 500 response carrying a non-empty payload is
reported through the residual failure built from the HTTP reason, not
through the no-data failure, refuting that a non-2xx response is always
reported as the no-data failure. -/
theorem not_ok_with_payload_not_noData :
    search_ref_handle .firm resNotOkWithData =
      .otherReason (other_reason_msg "Internal Server Error") ∧
    resNotOkWithData.ok = false ∧
    (∀ m, search_ref_handle .firm resNotOkWithData ≠ .noData m) := by
  have h1 : search_ref_handle .firm resNotOkWithData =
      .otherReason (other_reason_msg "Internal Server Error") := rfl
  refine ⟨h1, rfl, fun m h => ?_⟩
  rw [h1] at h
  simp at h

/-- C2 (amended): the resolver fails with the no-data message exactly
when the Data payload is absent or falsy, regardless of the HTTP
status; a non-ok response whose payload is truthy instead fails with
the residual message built from the HTTP reason. -/
theorem noData_iff_falsy_payload (rt : ResourceType) (res : SearchResponse)
    (d : Option Json) (hd : fsr_data res = .ok d) :
    ((∃ m, search_ref_handle rt res = .noData m) ↔ truthy d = false) ∧
    (∀ m, search_ref_handle rt res = .noData m → m = no_data_msg) ∧
    (res.ok = false → truthy d = true →
      search_ref_handle rt res = .otherReason (other_reason_msg res.reason)) := by
  have key : ∀ m, search_ref_handle rt res = .noData m →
      m = no_data_msg ∧ truthy d = false := by
    intro m hm
    cases htr : truthy d with
    | false =>
      rw [handle_of_falsy_data rt res d hd htr] at hm
      injection hm with h
      exact ⟨h.symm, rfl⟩
    | true =>
      cases hok : res.ok with
      | false =>
        rw [handle_of_not_ok_truthy rt res d hd htr hok] at hm
        simp at hm
      | true =>
        cases hlen : pyLen d with
        | error e =>
          rw [handle_of_len_error rt res d e hd htr hok hlen] at hm
          simp at hm
        | ok n =>
          by_cases hn : 1 < n
          · rw [handle_of_len_gt_one rt res d n hd htr hok hlen hn] at hm
            simp at hm
          · cases hex : extract_ref d with
            | ok v =>
              rw [handle_of_extract_ok rt res d n v hd htr hok hlen hn hex] at hm
              simp at hm
            | error e =>
              cases e with
              | keyError =>
                rw [handle_of_extract_keyError rt res d n hd htr hok hlen hn hex] at hm
                simp at hm
              | indexError =>
                rw [handle_of_extract_indexError rt res d n hd htr hok hlen hn hex] at hm
                simp at hm
              | typeError =>
                rw [handle_of_extract_other rt res d n _ hd htr hok hlen hn hex
                  (by decide) (by decide)] at hm
                simp at hm
              | attributeError =>
                rw [handle_of_extract_other rt res d n _ hd htr hok hlen hn hex
                  (by decide) (by decide)] at hm
                simp at hm
              | jsonDecodeError =>
                rw [handle_of_extract_other rt res d n _ hd htr hok hlen hn hex
                  (by decide) (by decide)] at hm
                simp at hm
  refine ⟨⟨fun h => ?_, fun htr => ?_⟩, fun m hm => (key m hm).1,
    fun hok htr => handle_of_not_ok_truthy rt res d hd htr hok⟩
  · obtain ⟨m, hm⟩ := h
    exact (key m hm).2
  · exact ⟨no_data_msg, handle_of_falsy_data rt res d hd htr⟩

/-- C2 witness: the amended statement instantiated on a successful
search whose payload is the empty list. -/
theorem noData_iff_falsy_payload_witness :
    fsr_data resNoData = .ok (some (.arr [])) ∧
    (((∃ m, search_ref_handle .individual resNoData = .noData m) ↔
        truthy (some (.arr [])) = false) ∧
      (∀ m, search_ref_handle .individual resNoData = .noData m →
        m = no_data_msg) ∧
      (resNoData.ok = false → truthy (some (.arr [])) = true →
        search_ref_handle .individual resNoData =
          .otherReason (other_reason_msg resNoData.reason))) :=
  ⟨rfl, noData_iff_falsy_payload .individual resNoData (some (.arr [])) rfl⟩

/-- C4 counterexample: on a successful one-entry payload whose
reference-number field is the empty string, the resolver returns the
empty string, refuting the guarantee that a normally returning resolver
yields a non-empty reference number. -/
theorem resolver_returns_empty_string_ref :
    search_ref_handle .firm resEmptyRef = .ref (.str "") ∧
    fsr_data resEmptyRef =
      .ok (some (.arr [.obj [("Reference Number", .str "")]])) ∧
    resEmptyRef.ok = true :=
  ⟨rfl, rfl, rfl⟩

/-- C4 (amended): whenever a resolver returns normally, the returned
value is exactly the reference-number field extracted from the truthy
payload, with no non-emptiness guarantee. -/
theorem ref_outcome_is_extracted_field (rt : ResourceType) (res : SearchResponse)
    (v : Json) (h : search_ref_handle rt res = .ref v) :
    ∃ d, fsr_data res = .ok d ∧ truthy d = true ∧ extract_ref d = .ok v := by
  cases hd : fsr_data res with
  | error e =>
    rw [handle_of_data_error rt res e hd] at h
    simp at h
  | ok d =>
    cases htr : truthy d with
    | false =>
      rw [handle_of_falsy_data rt res d hd htr] at h
      simp at h
    | true =>
      cases hok : res.ok with
      | false =>
        rw [handle_of_not_ok_truthy rt res d hd htr hok] at h
        simp at h
      | true =>
        cases hlen : pyLen d with
        | error e =>
          rw [handle_of_len_error rt res d e hd htr hok hlen] at h
          simp at h
        | ok n =>
          by_cases hn : 1 < n
          · rw [handle_of_len_gt_one rt res d n hd htr hok hlen hn] at h
            simp at h
          · cases hex : extract_ref d with
            | ok v2 =>
              rw [handle_of_extract_ok rt res d n v2 hd htr hok hlen hn hex] at h
              injection h with hv
              refine ⟨d, rfl, htr, ?_⟩
              rw [← hv]
              exact hex
            | error e =>
              cases e with
              | keyError =>
                rw [handle_of_extract_keyError rt res d n hd htr hok hlen hn hex] at h
                simp at h
              | indexError =>
                rw [handle_of_extract_indexError rt res d n hd htr hok hlen hn hex] at h
                simp at h
              | typeError =>
                rw [handle_of_extract_other rt res d n _ hd htr hok hlen hn hex
                  (by decide) (by decide)] at h
                simp at h
              | attributeError =>
                rw [handle_of_extract_other rt res d n _ hd htr hok hlen hn hex
                  (by decide) (by decide)] at h
                simp at h
              | jsonDecodeError =>
                rw [handle_of_extract_other rt res d n _ hd htr hok hlen hn hex
                  (by decide) (by decide)] at h
                simp at h

/-- C4 witness: the amended statement instantiated on the successful
one-entry payload whose reference-number field is the empty string. -/
theorem ref_outcome_is_extracted_field_witness :
    search_ref_handle .firm resEmptyRef = .ref (.str "") ∧
    ∃ d, fsr_data resEmptyRef = .ok d ∧ truthy d = true ∧
      extract_ref d = .ok (.str "") :=
  ⟨rfl, ref_outcome_is_extracted_field .firm resEmptyRef (.str "") rfl⟩

/-- C5: on a successful response whose truthy payload has Python length
one, an extraction failing with a key error or an index error makes the
resolver fail with the malformed-data message, and with no other error
kind. -/
theorem single_entry_extract_error_is_malformed (rt : ResourceType)
    (res : SearchResponse) (d : Option Json) (e : PyErr)
    (hd : fsr_data res = .ok d) (hok : res.ok = true) (htr : truthy d = true)
    (hlen : pyLen d = .ok 1) (hex : extract_ref d = .error e)
    (he : e = .keyError ∨ e = .indexError) :
    search_ref_handle rt res = .malformedData (malformed_msg rt) := by
  have hn : ¬ 1 < 1 := Nat.lt_irrefl 1
  rcases he with rfl | rfl
  · exact handle_of_extract_keyError rt res d 1 hd htr hok hlen hn hex
  · exact handle_of_extract_indexError rt res d 1 hd htr hok hlen hn hex

/-- C5 witness: the statement instantiated on a one-entry payload whose
entry lacks the reference-number field. -/
theorem single_entry_extract_error_is_malformed_witness :
    (fsr_data resMissingRef = .ok (some oneEntryNoRef) ∧
      resMissingRef.ok = true ∧ truthy (some oneEntryNoRef) = true ∧
      pyLen (some oneEntryNoRef) = .ok 1 ∧
      extract_ref (some oneEntryNoRef) = .error .keyError) ∧
    search_ref_handle .firm resMissingRef = .malformedData (malformed_msg .firm) :=
  ⟨⟨rfl, rfl, rfl, rfl, rfl⟩,
    single_entry_extract_error_is_malformed .firm resMissingRef
      (some oneEntryNoRef) .keyError rfl rfl rfl rfl rfl (.inl rfl)⟩

/-- C6: on a transport where every GET raises, the search and the three
detail fetches each surface the failure as the request exception
carrying the underlying cause; that exception class and the response
exception class are distinct and both subclass the common base. -/
theorem transport_failure_is_requestExc (e : TransportError) (t : Transport)
    (ht : ∀ url, t url = .error e) (s frn irn prn : String)
    (mods : Option (List String)) :
    common_search s t = .requestExc e ∧
    firm_info frn mods t = .requestExc e ∧
    individual_info irn mods t = .requestExc e ∧
    fund_info prn mods t = .requestExc e ∧
    superclass .FsrApiRequestException = some .FsrApiException ∧
    superclass .FsrApiResponseException = some .FsrApiException ∧
    ExcClass.FsrApiRequestException ≠ ExcClass.FsrApiResponseException := by
  refine ⟨?_, ?_, ?_, ?_, rfl, rfl, by decide⟩
  · simp [common_search, ht]
  · simp [firm_info, ht]
  · simp [individual_info, ht]
  · simp [fund_info, ht]

/-- C6 witness: the statement instantiated on the everywhere-failing
transport. -/
theorem transport_failure_is_requestExc_witness :
    common_search "q=hastings+direct&type=firm" tDown =
      .requestExc (.mk "connection refused") ∧
    firm_info "122702" none tDown = .requestExc (.mk "connection refused") ∧
    individual_info "MXC29012" none tDown = .requestExc (.mk "connection refused") ∧
    fund_info "913937" none tDown = .requestExc (.mk "connection refused") ∧
    superclass .FsrApiRequestException = some .FsrApiException ∧
    superclass .FsrApiResponseException = some .FsrApiException ∧
    ExcClass.FsrApiRequestException ≠ ExcClass.FsrApiResponseException :=
  transport_failure_is_requestExc (.mk "connection refused") tDown (fun _ => rfl)
    "q=hastings+direct&type=firm" "122702" "MXC29012" "913937" none

/-- C7 counterexample: on a body that parses to a JSON array, every
envelope accessor raises (the decoded value has no `get` attribute)
even though the body is parseable as JSON, refuting that an accessor
raises only on an unparseable body. -/
theorem parseable_array_body_accessor_raises :
    resArrBody.body = some (.arr [.num 1]) ∧
    fsr_status resArrBody = .error .attributeError ∧
    fsr_message resArrBody = .error .attributeError ∧
    fsr_resultinfo resArrBody = .error .attributeError ∧
    fsr_data resArrBody = .error .attributeError :=
  ⟨rfl, rfl, rfl, rfl, rfl⟩

/-- C7 (amended): on a body that parses to a JSON object, each of the
four envelope accessors returns the plain lookup of its key — the
absent value when the key is missing — and never raises; an accessor
raises exactly when the body is unparseable or parses to a non-object. -/
theorem accessors_total_on_object_body (r : SearchResponse)
    (fields : List (String × Json)) (hb : r.body = some (.obj fields)) :
    fsr_status r = .ok (lookupField fields "Status") ∧
    fsr_message r = .ok (lookupField fields "Message") ∧
    fsr_resultinfo r = .ok (lookupField fields "ResultInfo") ∧
    fsr_data r = .ok (lookupField fields "Data") := by
  unfold fsr_status fsr_message fsr_resultinfo fsr_data response_json
  rw [hb]
  exact ⟨rfl, rfl, rfl, rfl⟩

/-- C7 witness: the amended statement instantiated on a body that is an
object with no keys, where all four accessors return the absent value. -/
theorem accessors_total_on_object_body_witness :
    resObjBodyNoKeys.body = some (.obj []) ∧
    (fsr_status resObjBodyNoKeys = .ok (lookupField [] "Status") ∧
     fsr_message resObjBodyNoKeys = .ok (lookupField [] "Message") ∧
     fsr_resultinfo resObjBodyNoKeys = .ok (lookupField [] "ResultInfo") ∧
     fsr_data resObjBodyNoKeys = .ok (lookupField [] "Data")) :=
  ⟨rfl, accessors_total_on_object_body resObjBodyNoKeys [] rfl⟩

end Fsrapiclient
